import Mathlib

/- Shallow embedding of the fungal-trove pipeline scripts `src/barrnap.py`
and `src/fasttree_with_bootstraps.py`.  Pure Python functions become Lean
functions; filesystem state and external-tool exit statuses become explicit
environment records; Python exceptions become `Except` values; the Python
`random` source becomes an explicit stream parameter.  Biopython collaborator
semantics (SeqRecord slicing and truthiness, MultipleSeqAlignment.append
validation) are embedded following the Biopython sources the scripts import. -/

/- ===== Data model (spec section 3) ===== -/

/-- A parsed FASTA record as produced by Bio.SeqIO: identifier, name,
free-text description and residue sequence.  A Biopython SeqRecord defines
a bool value of True always, which matters for the selection loop below. -/
structure SeqRecord where
  id : String
  name : String
  description : String
  seq : String
  deriving DecidableEq

/-- Bio.Align.MultipleSeqAlignment: an ordered list of records. -/
structure MultipleSeqAlignment where
  records : List SeqRecord
  deriving DecidableEq

/- ===== Sequence Record Selector (barrnap.py lines 78-98) ===== -/

/-- Does the list `needle` occur at the head of the first argument? -/
def listStartsWith : List Char → List Char → Bool
  | _, [] => true
  | [], _ :: _ => false
  | c :: cs, d :: ds => decide (c = d) && listStartsWith cs ds

/-- Python substring test `needle in hay` on character lists. -/
def containsSub (needle : List Char) : List Char → Bool
  | [] => needle.isEmpty
  | c :: rest => listStartsWith (c :: rest) needle || containsSub needle rest

/-- The label predicate of barrnap.py line 87: `"18S" in record.description`. -/
def matches18S (r : SeqRecord) : Bool :=
  containsSub (String.toList ("18S")) (String.toList r.description)

/-- One comparison step of barrnap.py lines 89-90:
`if not longest_record or len(record.seq) > len(longest_record.seq)`.
A Biopython SeqRecord always evaluates as True, so `not longest_record`
is exactly the None test; the comparison is strictly-greater. -/
def pickLonger : Option SeqRecord → SeqRecord → Option SeqRecord
  | none, record => some record
  | some longest_record, record =>
    if record.seq.length > longest_record.seq.length then some record
    else some longest_record

/-- The selection loop of extract_longest_18s, barrnap.py lines 85-90. -/
def extract_longest_18s_fold (records : List SeqRecord) : Option SeqRecord :=
  records.foldl
    (fun longest_record record =>
      if matches18S record = false then longest_record
      else pickLonger longest_record record)
    none

/-- extract_longest_18s, barrnap.py lines 78-98: the parsed records of
`rrna_fasta` go in; out come the returned length and the record written to
`output_fasta` (`none` when the write branch is not taken, in which case the
output path is never opened). -/
def extract_longest_18s (records : List SeqRecord) : Nat × Option SeqRecord :=
  match extract_longest_18s_fold records with
  | some longest_record => (longest_record.seq.length, some longest_record)
  | none => (0, none)

/- ===== Batch Driver, sample pipeline (barrnap.py lines 101-130) ===== -/

/-- Environment of one sample: does `{id}_scaffolds.fasta` exist, do the
two external tool calls exit zero, and what records does the extracted
rRNA FASTA parse to when both tools succeed. -/
structure SampleEnv where
  inputExists : Bool
  barrnapOk : Bool
  bedtoolsOk : Bool
  rrnaRecords : List SeqRecord
  deriving DecidableEq

/-- The try/except body of barrnap.py lines 120-126: a CalledProcessError
from run_barrnap or extract_rrna_regions is caught and the length set to 0;
otherwise the length is the selector's result. -/
def try_sample (e : SampleEnv) : Nat :=
  if e.barrnapOk = false then 0
  else if e.bedtoolsOk = false then 0
  else (extract_longest_18s e.rrnaRecords).1

/-- The data rows of the summary CSV written by main, barrnap.py lines
109-128 (the fixed header row of line 107 is not repeated here).  A work
item whose input file does not exist hits the `continue` of line 113 and
writes no row; otherwise one row (sample_id, length) is appended. -/
def barrnap_main_rows (work : List (String × SampleEnv)) : List (String × Nat) :=
  work.foldl
    (fun rows it =>
      if it.2.inputExists = false then rows
      else rows ++ [(it.1, try_sample it.2)])
    []

/-- A fully healthy sample environment (input present, both tools succeed). -/
def okEnv (recs : List SeqRecord) : SampleEnv :=
  ⟨true, true, true, recs⟩

/- ===== Resampling Engine (fasttree_with_bootstraps.py lines 35-54) ===== -/

/-- Python random.randint(lo, hi) (both ends inclusive), driven by an
explicit external random value. -/
def randint (lo hi r : Nat) : Nat :=
  lo + r % (hi + 1 - lo)

/-- Line 45: `indices = [random.randint(0, num_cols - 1) for _ in range(num_cols)]`,
driven by the stream rs (k-th draw uses rs k). -/
def draw_indices (num_cols : Nat) (rs : Nat → Nat) : List Nat :=
  (List.range num_cols).map (fun k => randint 0 (num_cols - 1) (rs k))

/-- Biopython MultipleSeqAlignment.get_alignment_length: maximum row length. -/
def get_alignment_length (a : MultipleSeqAlignment) : Nat :=
  a.records.foldl (fun m r => max m r.seq.length) 0

/-- SeqRecord slice `rec[:0]`: fresh record, same id/name/description,
empty sequence (fasttree line 46). -/
def sliceTo0 (r : SeqRecord) : SeqRecord :=
  ⟨r.id, r.name, r.description, ""⟩

/-- SeqRecord slice `rec[:]`: fresh copy, same id/name/description/seq
(fasttree line 50). -/
def sliceAll (r : SeqRecord) : SeqRecord :=
  ⟨r.id, r.name, r.description, r.seq⟩

/-- Attribute assignment `new_rec.seq = seq` (fasttree line 51); FASTA
records carry no per-letter metadata, so the setter just stores. -/
def setSeq (r : SeqRecord) (s : String) : SeqRecord :=
  ⟨r.id, r.name, r.description, s⟩

/-- Python string indexing `s[i]` for a non-negative index: IndexError
outside the range. -/
def pyStrGet (s : String) (i : Nat) : Except String Char :=
  if h : i < s.toList.length then .ok (s.toList.get ⟨i, h⟩)
  else .error ("IndexError: string index out of range")

/-- Left-to-right evaluation of the generator `(rec.seq[i] for i in indices)`
as consumed by join (fasttree line 49). -/
def mapGet (s : String) : List Nat → Except String (List Char)
  | [] => .ok []
  | i :: rest =>
    match pyStrGet s i with
    | .error e => .error e
    | .ok c =>
      match mapGet s rest with
      | .error e => .error e
      | .ok cs => .ok (c :: cs)

/-- Line 49: `seq = "".join(rec.seq[i] for i in indices)`. -/
def resample_row (s : String) (indices : List Nat) : Except String String :=
  match mapGet s indices with
  | .error e => .error e
  | .ok cs => .ok (String.mk cs)

/-- Biopython MultipleSeqAlignment.append: on a nonempty alignment the new
record must have exactly the current alignment length, else
`ValueError: Sequences must all be the same length` is raised. -/
def MSA_append (a : MultipleSeqAlignment) (r : SeqRecord) :
    Except String MultipleSeqAlignment :=
  match a.records with
  | [] => .ok ⟨[r]⟩
  | _ :: _ =>
    if r.seq.length = get_alignment_length a then .ok ⟨a.records ++ [r]⟩
    else .error ("ValueError: Sequences must all be the same length")

/-- The `for rec in alignment` loop of fasttree lines 48-52: compute the
resampled string, copy the record, overwrite its seq, append to the
bootstrap alignment (exceptions propagate). -/
def bootstrap_append_rows (indices : List Nat) :
    MultipleSeqAlignment → List SeqRecord → Except String MultipleSeqAlignment
  | bootstrap, [] => .ok bootstrap
  | bootstrap, r :: rest =>
    match resample_row r.seq indices with
    | .error e => .error e
    | .ok s =>
      match MSA_append bootstrap (setSeq (sliceAll r) s) with
      | .error e => .error e
      | .ok b2 => bootstrap_append_rows indices b2 rest

/-- generate_bootstrap_alignment, fasttree lines 35-54: num_cols is the
alignment length, one index draw is taken (line 45), the bootstrap
alignment is seeded with the zero-length slices `[rec[:0] for rec in
alignment]` (line 46), then each row is resampled and appended. -/
def generate_bootstrap_alignment (alignment : MultipleSeqAlignment)
    (rs : Nat → Nat) : Except String MultipleSeqAlignment :=
  bootstrap_append_rows
    (draw_indices (get_alignment_length alignment) rs)
    ⟨alignment.records.map sliceTo0⟩
    alignment.records

/- ===== Resampling Engine over an explicit record store (for the frame
property: the source records are only ever read, every write goes to a
freshly allocated copy) ===== -/

/-- A store of records; an address is an index, allocation appends. -/
abbrev RecordHeap := List SeqRecord

/-- Read a record from the store. -/
def heapGet (h : RecordHeap) (a : Nat) : SeqRecord :=
  h.getD a ⟨"", "", "", ""⟩

/-- get_alignment_length of the records at the given addresses. -/
def heap_alignment_length (h : RecordHeap) (addrs : List Nat) : Nat :=
  addrs.foldl (fun m a => max m (heapGet h a).seq.length) 0

/-- Line 46 over the store: allocate one zero-length slice per source
record and collect the fresh addresses. -/
def seed_bootstrap : RecordHeap → List Nat → List Nat → RecordHeap × List Nat
  | h, acc, [] => (h, acc)
  | h, acc, a :: rest =>
    seed_bootstrap (h ++ [sliceTo0 (heapGet h a)]) (acc ++ [h.length]) rest

/-- Lines 48-52 over the store: read the source record, resample, allocate
the copy `rec[:]`, overwrite the copy's seq in place, then run the append
validation against the bootstrap rows; the heap survives an exception. -/
def bootstrap_loop (indices : List Nat) :
    RecordHeap → List Nat → List Nat → RecordHeap × Except String (List Nat)
  | h, bs, [] => (h, .ok bs)
  | h, bs, a :: rest =>
    match resample_row (heapGet h a).seq indices with
    | .error e => (h, .error e)
    | .ok s =>
      let h1 := h ++ [sliceAll (heapGet h a)]
      let na := h.length
      let h2 := h1.set na (setSeq (heapGet h1 na) s)
      match bs with
      | [] => bootstrap_loop indices h2 [na] rest
      | _ :: _ =>
        if (heapGet h2 na).seq.length = heap_alignment_length h2 bs then
          bootstrap_loop indices h2 (bs ++ [na]) rest
        else (h2, .error ("ValueError: Sequences must all be the same length"))

/-- generate_bootstrap_alignment over the store: the source alignment is
the address list `addrs`; the result is the final store plus either the
bootstrap row addresses or the raised exception. -/
def generate_bootstrap_alignment_st (h : RecordHeap) (addrs : List Nat)
    (rs : Nat → Nat) : RecordHeap × Except String (List Nat) :=
  bootstrap_loop (draw_indices (heap_alignment_length h addrs) rs)
    (seed_bootstrap h [] addrs).1 (seed_bootstrap h [] addrs).2 addrs

/-- Repeated invocations of the engine against the same source addresses
(the per-replicate loop of fasttree main), threading the store. -/
def iterate_engine (addrs : List Nat) (rss : Nat → Nat → Nat) :
    Nat → RecordHeap → RecordHeap
  | 0, h => h
  | k + 1, h =>
    iterate_engine addrs rss k (generate_bootstrap_alignment_st h addrs (rss k)).1

/- ===== Batch Driver, replicate pipeline (fasttree lines 70-99) ===== -/

/-- Environment of the replicate loop: exit status of FastTree per
replicate index, and the random stream used by replicate i. -/
structure RepEnv where
  fasttreeOk : Nat → Bool
  randSource : Nat → Nat → Nat

/-- Outcome of one replicate: its index and whether run_fasttree
succeeded (a CalledProcessError is caught and logged, line 96-97). -/
structure RepOutcome where
  index : Nat
  treeSuccess : Bool
  deriving DecidableEq

/-- The `for i in range(1, NUM_REPLICATES + 1)` loop of fasttree lines
86-97: generate the bootstrap alignment (uncaught exceptions abort the
whole loop), persist it, then try run_fasttree with only
CalledProcessError caught.  Iterations run in index order 1..n. -/
def fasttree_loop (al : MultipleSeqAlignment) (env : RepEnv) :
    Nat → Except String (List RepOutcome)
  | 0 => .ok []
  | n + 1 =>
    match fasttree_loop al env n with
    | .error e => .error e
    | .ok acc =>
      match generate_bootstrap_alignment al (env.randSource (n + 1)) with
      | .error e => .error e
      | .ok _bs => .ok (acc ++ [⟨n + 1, env.fasttreeOk (n + 1)⟩])

/- ===== Spec-side selection functions (for comparison with the source
selector; these follow the spec's words for first-maximum selection) ===== -/

/-- Records whose description passes the label predicate, in parse order. -/
def matchingRecords (l : List SeqRecord) : List SeqRecord :=
  l.filter (fun r => matches18S r)

/-- Maximum residue-sequence length of a list of records (0 when empty). -/
def maxLenList : List SeqRecord → Nat
  | [] => 0
  | r :: t => max r.seq.length (maxLenList t)

/-- First record attaining the running maximum, strictly-greater update. -/
def firstMaxRec : SeqRecord → List SeqRecord → SeqRecord
  | b, [] => b
  | b, r :: t => firstMaxRec (if r.seq.length > b.seq.length then r else b) t

/- ===== Concrete inputs used by the counterexamples and witnesses ===== -/

/-- A one-record, one-column valid alignment. -/
def recA : SeqRecord := ⟨"A", "A", "A", "A"⟩

/-- The alignment holding just recA. -/
def alA : MultipleSeqAlignment := ⟨[recA]⟩

/-- Record A of the spec's end-to-end example. -/
def recEx1 : SeqRecord := ⟨"A", "A", "A", "ACGT"⟩

/-- Record B of the spec's end-to-end example. -/
def recEx2 : SeqRecord := ⟨"B", "B", "B", "TGCA"⟩

/-- The two-record example alignment. -/
def alEx : MultipleSeqAlignment := ⟨[recEx1, recEx2]⟩

/-- A random stream whose first four draws yield indices 3, 0, 0, 2. -/
def rsDraw : Nat → Nat := fun k => List.getD [3, 0, 0, 2] k 0

/-- The empty alignment (used to witness a completed replicate loop). -/
def alEmpty : MultipleSeqAlignment := ⟨[]⟩

/-- Replicate environment where FastTree fails on replicate 1 and
succeeds on replicate 2. -/
def envRep0 : RepEnv := ⟨fun i => decide (i = 2), fun _ _ => 0⟩

/-- Two tied maximal-length matching records (selector tie-break witness). -/
def tieL : List SeqRecord :=
  [⟨"r1", "r1", "18S one", "AAAA"⟩, ⟨"r2", "r2", "18S two", "CCCC"⟩]

/-- A record list with no description containing the 18S tag. -/
def no18SRecords : List SeqRecord := [⟨"x", "x", "16S ribosomal", "ACGT"⟩]

/-- Parsed rRNA records of sample 1 in the batch-isolation witness. -/
def rcs1 : List SeqRecord := [⟨"a", "a", "18S x", "ACGTA"⟩]

/-- Parsed rRNA records of sample 3 in the batch-isolation witness. -/
def rcs3 : List SeqRecord := [⟨"c", "c", "18S z", "AC"⟩]

/-- Sample environment whose input exists but whose barrnap call fails. -/
def e2c : SampleEnv := ⟨true, false, true, []⟩

/- ===== Theorems ===== -/

/-- The guarded selection fold over all records equals the unguarded fold
over the records passing the label predicate. -/
theorem fold_guard_eq_matching (l : List SeqRecord) :
    ∀ acc : Option SeqRecord,
      l.foldl
        (fun longest_record record =>
          if matches18S record = false then longest_record
          else pickLonger longest_record record) acc =
      (matchingRecords l).foldl pickLonger acc := by
  induction l with
  | nil => intro acc; rfl
  | cons r t ih =>
    intro acc
    cases hr : matches18S r with
    | false => simp [matchingRecords, List.filter_cons, hr, List.foldl_cons, ih acc]
    | true =>
      simp [matchingRecords, List.filter_cons, hr, List.foldl_cons,
        ih (pickLonger acc r)]

/-- The selection loop reduced to a fold over the matching records. -/
theorem extract_fold_eq (l : List SeqRecord) :
    extract_longest_18s_fold l = (matchingRecords l).foldl pickLonger none := by
  simpa [extract_longest_18s_fold] using fold_guard_eq_matching l none

/-- The strictly-greater fold keeps the first record attaining the running
maximum. -/
theorem foldl_pickLonger_some (t : List SeqRecord) :
    ∀ b : SeqRecord, t.foldl pickLonger (some b) = some (firstMaxRec b t) := by
  induction t with
  | nil => intro b; rfl
  | cons r t2 ih =>
    intro b
    have hstep : pickLonger (some b) r =
        some (if r.seq.length > b.seq.length then r else b) := by
      by_cases hc : r.seq.length > b.seq.length <;> simp [pickLonger, hc]
    simp [List.foldl_cons, hstep, firstMaxRec, ih]

/-- firstMaxRec agrees with searching for the first record of maximal
length. -/
theorem find_max_firstMaxRec (t : List SeqRecord) :
    ∀ b : SeqRecord,
      (b :: t).find? (fun r => decide (r.seq.length = maxLenList (b :: t))) =
        some (firstMaxRec b t) := by
  induction t with
  | nil =>
    intro b
    have hmb : maxLenList [b] = b.seq.length := by simp [maxLenList]
    simp [hmb, firstMaxRec, List.find?]
  | cons r t2 ih =>
    intro b
    by_cases hc : r.seq.length > b.seq.length
    · have hkey : maxLenList (b :: r :: t2) = maxLenList (r :: t2) := by
        simp [maxLenList]; omega
      have hmr : maxLenList (r :: t2) = max r.seq.length (maxLenList t2) := rfl
      rw [hkey]
      rw [List.find?_cons_of_neg _ (by simp; omega)]
      have h2 := ih r
      simp only [firstMaxRec, if_pos hc]
      exact h2
    · have hkey : maxLenList (b :: r :: t2) = maxLenList (b :: t2) := by
        simp [maxLenList]; omega
      have hmb : maxLenList (b :: t2) = max b.seq.length (maxLenList t2) := rfl
      rw [hkey]
      by_cases hb : b.seq.length = maxLenList (b :: t2)
      · rw [List.find?_cons_of_pos _ (by simp [hb])]
        have h2 := ih b
        rw [List.find?_cons_of_pos _ (by simp [hb])] at h2
        simp only [firstMaxRec, if_neg hc]
        exact h2
      · have hrne : ¬ (r.seq.length = maxLenList (b :: t2)) := by omega
        rw [List.find?_cons_of_neg _ (by simp [hb])]
        rw [List.find?_cons_of_neg _ (by simp [hrne])]
        have h2 := ih b
        rw [List.find?_cons_of_neg _ (by simp [hb])] at h2
        simp only [firstMaxRec, if_neg hc]
        exact h2

/-- C5: when two or more records matching the label predicate share the
maximal residue-sequence length, the selection loop of extract_longest_18s
returns the first matching record of maximal length in input order (the
comparison against the running best is strictly-greater). -/
theorem selector_tiebreak_first (l : List SeqRecord)
    (h : 2 ≤ (matchingRecords l).countP
        (fun r => decide (r.seq.length = maxLenList (matchingRecords l)))) :
    extract_longest_18s_fold l =
      (matchingRecords l).find?
        (fun r => decide (r.seq.length = maxLenList (matchingRecords l))) := by
  rw [extract_fold_eq]
  cases hm : matchingRecords l with
  | nil => rw [hm] at h; simp at h
  | cons b t =>
    have h1 : (b :: t).foldl pickLonger none = t.foldl pickLonger (some b) := rfl
    rw [h1, foldl_pickLonger_some t b, find_max_firstMaxRec t b]

/-- C5 witness: two tied maximal 18S records, the first one wins. -/
theorem selector_tiebreak_first_witness :
    (2 ≤ (matchingRecords tieL).countP
        (fun r => decide (r.seq.length = maxLenList (matchingRecords tieL)))) ∧
    extract_longest_18s_fold tieL =
      (matchingRecords tieL).find?
        (fun r => decide (r.seq.length = maxLenList (matchingRecords tieL))) :=
  ⟨by decide, selector_tiebreak_first tieL (by decide)⟩

/-- C6: when no record's description matches the label predicate, the
selection loop yields the explicit `none`, extract_longest_18s returns
length 0 with no record written, and the calling unit pipeline records
length 0; no error is raised (all functions return normally). -/
theorem selector_none_found (records : List SeqRecord)
    (h : ∀ r ∈ records, matches18S r = false) :
    extract_longest_18s_fold records = none ∧
    extract_longest_18s records = (0, none) ∧
    try_sample (okEnv records) = 0 := by
  have hm : matchingRecords records = [] := by
    simp only [matchingRecords, List.filter_eq_nil_iff]
    intro r hr
    simp [h r hr]
  have hf : extract_longest_18s_fold records = none := by
    rw [extract_fold_eq, hm]; rfl
  refine ⟨hf, ?_, ?_⟩
  · simp [extract_longest_18s, hf]
  · simp [try_sample, okEnv, extract_longest_18s, hf]

/-- C6 witness: a record list with only a 16S description. -/
theorem selector_none_found_witness :
    (∀ r ∈ no18SRecords, matches18S r = false) ∧
    (extract_longest_18s_fold no18SRecords = none ∧
     extract_longest_18s no18SRecords = (0, none) ∧
     try_sample (okEnv no18SRecords) = 0) :=
  ⟨by decide, selector_none_found no18SRecords (by decide)⟩

/-- C10: extract_longest_18s writes a record to its output FASTA path if
and only if at least one input record's description contains the 18S tag;
in the no-match case the write effect is `none` (the output path is never
opened). -/
theorem selector_write_iff_match (records : List SeqRecord) :
    ((extract_longest_18s records).2).isSome = records.any (fun r => matches18S r) := by
  have h2 : (extract_longest_18s records).2 = extract_longest_18s_fold records := by
    cases hf : extract_longest_18s_fold records <;> simp [extract_longest_18s, hf]
  rw [h2, extract_fold_eq]
  cases hm : matchingRecords records with
  | nil =>
    have hall : ∀ r ∈ records, ¬ (matches18S r = true) := by
      simpa [matchingRecords, List.filter_eq_nil_iff] using hm
    simp only [List.foldl_nil, Option.isSome_none]
    exact (List.any_eq_false.mpr hall).symm
  | cons b t =>
    have hb : b ∈ records ∧ matches18S b = true := by
      have hmem : b ∈ matchingRecords records := by
        rw [hm]; exact List.mem_cons_self b t
      simpa [matchingRecords, List.mem_filter] using hmem
    have h1 : (b :: t).foldl pickLonger none = t.foldl pickLonger (some b) := rfl
    rw [h1, foldl_pickLonger_some t b]
    simp only [Option.isSome_some]
    exact (List.any_eq_true.mpr ⟨b, hb.1, hb.2⟩).symm

/-- The summary fold with any accumulated prefix: one row per work item
whose input exists, in work-list order. -/
theorem barnrows_general (work : List (String × SampleEnv)) :
    ∀ rows0 : List (String × Nat),
      work.foldl
        (fun rows it =>
          if it.2.inputExists = false then rows
          else rows ++ [(it.1, try_sample it.2)]) rows0 =
      rows0 ++ (work.filter (fun it => it.2.inputExists)).map
        (fun it => (it.1, try_sample it.2)) := by
  induction work with
  | nil => intro rows0; simp
  | cons it rest ih =>
    intro rows0
    cases hx : it.2.inputExists with
    | false => simp [List.foldl_cons, List.filter_cons, hx, ih rows0]
    | true =>
      simp [List.foldl_cons, List.filter_cons, hx,
        ih (rows0 ++ [(it.1, try_sample it.2)])]

/-- A failed external tool call makes the unit processor record length 0. -/
theorem try_sample_fail_zero (e : SampleEnv)
    (h : e.barrnapOk = false ∨ e.bedtoolsOk = false) : try_sample e = 0 := by
  rcases h with hb | hd
  · simp [try_sample, hb]
  · cases hB : e.barrnapOk <;> simp [try_sample, hB, hd]

/-- On a healthy environment the row value is the selector's length. -/
theorem try_sample_okEnv (recs : List SeqRecord) :
    try_sample (okEnv recs) = (extract_longest_18s recs).1 := rfl

/-- C1 (amended): a completed run writes exactly one row per configured
work item whose expected input file exists, in work-list order; items with
absent input are skipped with no row, while items whose tool invocation
fails still get a sentinel row of 0. -/
theorem summary_rows_per_existing_input :
    (∀ work : List (String × SampleEnv),
      barrnap_main_rows work =
        (work.filter (fun it => it.2.inputExists)).map
          (fun it => (it.1, try_sample it.2))) ∧
    (∀ e : SampleEnv, e.barrnapOk = false ∨ e.bedtoolsOk = false →
      try_sample e = 0) := by
  constructor
  · intro work
    simpa [barrnap_main_rows] using barnrows_general work []
  · exact fun e he => try_sample_fail_zero e he

/-- C1 witness: a failing-tool environment yields the sentinel 0. -/
theorem summary_rows_per_existing_input_witness :
    ((⟨true, false, true, []⟩ : SampleEnv).barrnapOk = false) ∧
    try_sample (⟨true, false, true, []⟩ : SampleEnv) = 0 :=
  ⟨rfl, summary_rows_per_existing_input.2 (⟨true, false, true, []⟩ : SampleEnv)
    (Or.inl rfl)⟩

/-- C1 counterexample: a work item whose expected input file is absent
produces no row at all (the summary has zero rows, not a sentinel row). -/
theorem missing_input_row_omitted_cex :
    barrnap_main_rows [("S1", (⟨false, true, true, []⟩ : SampleEnv))] = [] ∧
    barrnap_main_rows [("S1", (⟨false, true, true, []⟩ : SampleEnv))] ≠ [("S1", 0)] :=
  ⟨rfl, by decide⟩

/-- C7: in a three-item work list whose inputs all exist, a failing
external tool call on item 2 yields exactly three rows, with the sentinel
0 in row 2 and the real computed selector lengths in rows 1 and 3. -/
theorem batch_isolation_three_items (s1 s2 s3 : String)
    (r1 r3 : List SeqRecord) (e2 : SampleEnv)
    (h1 : e2.inputExists = true)
    (h2 : e2.barrnapOk = false ∨ e2.bedtoolsOk = false) :
    barrnap_main_rows [(s1, okEnv r1), (s2, e2), (s3, okEnv r3)] =
      [(s1, (extract_longest_18s r1).1), (s2, 0), (s3, (extract_longest_18s r3).1)] := by
  have hz : try_sample e2 = 0 := try_sample_fail_zero e2 h2
  have key : barrnap_main_rows [(s1, okEnv r1), (s2, e2), (s3, okEnv r3)] =
      [(s1, try_sample (okEnv r1)), (s2, try_sample e2), (s3, try_sample (okEnv r3))] := by
    simp [barrnap_main_rows, okEnv, h1]
  rw [key, hz, try_sample_okEnv, try_sample_okEnv]

/-- C7 witness: concrete three-sample run with a barrnap failure on
sample 2; rows 1 and 3 carry the computed lengths 5 and 2. -/
theorem batch_isolation_three_items_witness :
    (e2c.inputExists = true) ∧
    (e2c.barrnapOk = false ∨ e2c.bedtoolsOk = false) ∧
    barrnap_main_rows [("S1", okEnv rcs1), ("S2", e2c), ("S3", okEnv rcs3)] =
      [("S1", 5), ("S2", 0), ("S3", 2)] :=
  ⟨rfl, Or.inl rfl, by
    rw [batch_isolation_three_items ("S1") ("S2") ("S3") rcs1 rcs3 e2c rfl (Or.inl rfl)]
    decide⟩

/-- String toList has the string's length. -/
theorem toList_length_eq (s : String) : s.toList.length = s.length := rfl

/-- Every drawn index is a valid 0-based column index. -/
theorem randint_draw_lt (c : Nat) (rs : Nat → Nat) (hc : 1 ≤ c) :
    ∀ i ∈ draw_indices c rs, i < c := by
  intro i hi
  simp only [draw_indices, List.mem_map, List.mem_range] at hi
  obtain ⟨k, hk, hek⟩ := hi
  subst hek
  simp only [randint]
  have hcc : c - 1 + 1 - 0 = c := by omega
  rw [hcc]
  have := Nat.mod_lt (rs k) (show 0 < c by omega)
  omega

/-- Exactly C column indices are drawn per invocation. -/
theorem draw_indices_length (c : Nat) (rs : Nat → Nat) :
    (draw_indices c rs).length = c := by
  simp [draw_indices]

/-- In-range lookups all succeed and produce one character per index. -/
theorem mapGet_ok (s : String) (idx : List Nat)
    (h : ∀ i ∈ idx, i < s.toList.length) :
    ∃ cs : List Char, mapGet s idx = .ok cs ∧ cs.length = idx.length := by
  induction idx with
  | nil => exact ⟨[], rfl, rfl⟩
  | cons i t ih =>
    have hi : i < s.toList.length := h i (List.mem_cons_self i t)
    obtain ⟨cs, hcs, hlen⟩ := ih (fun j hj => h j (List.mem_cons_of_mem i hj))
    have h1 : pyStrGet s i = .ok (s.toList.get ⟨i, hi⟩) := dif_pos hi
    exact ⟨s.toList.get ⟨i, hi⟩ :: cs, by simp [mapGet, h1, hcs], by simp [hlen]⟩

/-- Resampling a row with in-range indices yields a string of one
character per drawn index. -/
theorem resample_row_ok (s : String) (idx : List Nat)
    (h : ∀ i ∈ idx, i < s.length) :
    ∃ t : String, resample_row s idx = .ok t ∧ t.length = idx.length := by
  have h2 : ∀ i ∈ idx, i < s.toList.length := by
    intro i hi
    rw [toList_length_eq]
    exact h i hi
  obtain ⟨cs, hcs, hlen⟩ := mapGet_ok s idx h2
  exact ⟨String.mk cs, by simp [resample_row, hcs], hlen⟩

/-- The seed alignment of zero-length slices has alignment length 0. -/
theorem seed_alignment_length_zero (l : List SeqRecord) :
    get_alignment_length ⟨l.map sliceTo0⟩ = 0 := by
  induction l with
  | nil => rfl
  | cons r t ih =>
    simpa [get_alignment_length, sliceTo0] using ih

/-- C2: on every valid nonempty alignment with at least one column,
generate_bootstrap_alignment raises ValueError instead of returning a
same-dimension alignment: the bootstrap is pre-seeded with the zero-length
slices of line 46, so the append validation of the first resampled row
(length C, against current alignment length 0) fails. -/
theorem resampler_raises_on_valid_alignment (al : MultipleSeqAlignment)
    (rs : Nat → Nat) (hne : al.records ≠ [])
    (hval : ∀ r ∈ al.records, r.seq.length = get_alignment_length al)
    (hc : 1 ≤ get_alignment_length al) :
    generate_bootstrap_alignment al rs =
      .error ("ValueError: Sequences must all be the same length") := by
  obtain ⟨r, rest, hrr⟩ := List.exists_cons_of_ne_nil hne
  have hrlen : r.seq.length = get_alignment_length al :=
    hval r (by rw [hrr]; exact List.mem_cons_self r rest)
  have hidx : ∀ i ∈ draw_indices (get_alignment_length al) rs, i < r.seq.length := by
    intro i hi
    rw [hrlen]
    exact randint_draw_lt _ rs hc i hi
  obtain ⟨s, hs, hslen⟩ := resample_row_ok r.seq _ hidx
  have hsC : s.length = get_alignment_length al := by
    rw [hslen, draw_indices_length]
  have hseed2 : get_alignment_length ⟨sliceTo0 r :: rest.map sliceTo0⟩ = 0 := by
    simpa using seed_alignment_length_zero (r :: rest)
  unfold generate_bootstrap_alignment
  rw [hrr]
  simp only [List.map_cons, bootstrap_append_rows, hs]
  simp only [MSA_append, setSeq, sliceAll]
  rw [hseed2]
  rw [if_neg (by omega)]

/-- C2 witness: the one-record, one-column alignment raises ValueError. -/
theorem resampler_raises_witness :
    (alA.records ≠ []) ∧
    (∀ r ∈ alA.records, r.seq.length = get_alignment_length alA) ∧
    (1 ≤ get_alignment_length alA) ∧
    generate_bootstrap_alignment alA (fun _ => 0) =
      .error ("ValueError: Sequences must all be the same length") :=
  ⟨by decide, by decide, by decide,
    resampler_raises_on_valid_alignment alA (fun _ => 0) (by decide) (by decide)
      (by decide)⟩

/-- C4: on the two-record example alignment the engine raises ValueError
before producing any output row, so no output position ever materialises
(the single index draw of line 45 is computed once, but the assembled
alignment is never returned). -/
theorem resampler_errors_before_output :
    generate_bootstrap_alignment alEx rsDraw =
      .error ("ValueError: Sequences must all be the same length") := rfl

/-- C3 counterexample: with the draw [3,0,0,2], row A resamples to TAAG
(not TAAC as claimed) and row B resamples to ATTC (not ACAG as claimed). -/
theorem bootstrap_example_not_spec_values :
    draw_indices 4 rsDraw = [3, 0, 0, 2] ∧
    resample_row recEx1.seq (draw_indices 4 rsDraw) = .ok ("TAAG") ∧
    (("TAAG" : String) ≠ ("TAAC" : String)) ∧
    resample_row recEx2.seq (draw_indices 4 rsDraw) = .ok ("ATTC") ∧
    (("ATTC" : String) ≠ ("ACAG" : String)) :=
  ⟨by decide, rfl, by decide, rfl, by decide⟩

/-- C3 (amended): with the shared draw [3,0,0,2] applied to both rows, the
per-row resampling computation of line 49 produces TAAG for A (ACGT) and
ATTC for B (TGCA), each of length 4. -/
theorem bootstrap_example_rows_amended :
    resample_row recEx1.seq (draw_indices 4 rsDraw) = .ok ("TAAG") ∧
    resample_row recEx2.seq (draw_indices 4 rsDraw) = .ok ("ATTC") ∧
    ("TAAG" : String).length = 4 ∧ ("ATTC" : String).length = 4 :=
  ⟨rfl, rfl, rfl, rfl⟩

/-- Setting a cell at or beyond position n does not change the first n
elements. -/
theorem take_set_le (a : SeqRecord) (n m : Nat) (l : List SeqRecord) (h : m ≤ n) :
    (l.set n a).take m = l.take m :=
  List.ext_getElem? fun i => by
    rw [List.getElem?_take, List.getElem?_take]
    split
    · next h2 => rw [List.getElem?_set_ne (by omega)]
    · rfl

/-- Seeding the bootstrap allocates only fresh cells: the first n store
cells survive untouched. -/
theorem seed_bootstrap_frame (addrs : List Nat) :
    ∀ (h : RecordHeap) (acc : List Nat) (n : Nat), n ≤ h.length →
      n ≤ (seed_bootstrap h acc addrs).1.length ∧
      (seed_bootstrap h acc addrs).1.take n = h.take n := by
  induction addrs with
  | nil => intro h acc n hn; exact ⟨hn, rfl⟩
  | cons a rest ih =>
    intro h acc n hn
    simp only [seed_bootstrap]
    have hlen : n ≤ (h ++ [sliceTo0 (heapGet h a)]).length := by
      simp
      omega
    obtain ⟨h1, h2⟩ := ih (h ++ [sliceTo0 (heapGet h a)]) (acc ++ [h.length]) n hlen
    exact ⟨h1, h2.trans (List.take_append_of_le_length hn)⟩

/-- The row loop writes only to freshly allocated copies: whatever the
outcome, the first n store cells survive untouched. -/
theorem bootstrap_loop_frame (indices : List Nat) (addrs : List Nat) :
    ∀ (h : RecordHeap) (bs : List Nat) (n : Nat), n ≤ h.length →
      n ≤ (bootstrap_loop indices h bs addrs).1.length ∧
      (bootstrap_loop indices h bs addrs).1.take n = h.take n := by
  induction addrs with
  | nil => intro h bs n hn; exact ⟨hn, rfl⟩
  | cons a rest ih =>
    intro h bs n hn
    cases hrs : resample_row (heapGet h a).seq indices with
    | error e =>
      simp only [bootstrap_loop, hrs]
      exact ⟨hn, by simp⟩
    | ok s =>
      simp only [bootstrap_loop, hrs]
      have htake : ((h ++ [sliceAll (heapGet h a)]).set h.length
          (setSeq (heapGet (h ++ [sliceAll (heapGet h a)]) h.length) s)).take n =
          h.take n := by
        rw [take_set_le _ _ _ _ hn, List.take_append_of_le_length hn]
      have hlen2 : n ≤ ((h ++ [sliceAll (heapGet h a)]).set h.length
          (setSeq (heapGet (h ++ [sliceAll (heapGet h a)]) h.length) s)).length := by
        simp
        omega
      cases bs with
      | nil =>
        obtain ⟨g1, g2⟩ := ih _ [h.length] n hlen2
        exact ⟨g1, g2.trans htake⟩
      | cons b bt =>
        by_cases hif : (heapGet ((h ++ [sliceAll (heapGet h a)]).set h.length
            (setSeq (heapGet (h ++ [sliceAll (heapGet h a)]) h.length) s))
            h.length).seq.length =
            heap_alignment_length ((h ++ [sliceAll (heapGet h a)]).set h.length
              (setSeq (heapGet (h ++ [sliceAll (heapGet h a)]) h.length) s)) (b :: bt)
        · rw [if_pos hif]
          obtain ⟨g1, g2⟩ := ih _ (b :: bt ++ [h.length]) n hlen2
          exact ⟨g1, g2.trans htake⟩
        · rw [if_neg hif]
          exact ⟨by simpa using hlen2, htake⟩

/-- One engine invocation leaves the pre-existing store cells unchanged. -/
theorem generate_st_frame (h : RecordHeap) (addrs : List Nat) (rs : Nat → Nat)
    (n : Nat) (hn : n ≤ h.length) :
    n ≤ (generate_bootstrap_alignment_st h addrs rs).1.length ∧
    (generate_bootstrap_alignment_st h addrs rs).1.take n = h.take n := by
  unfold generate_bootstrap_alignment_st
  obtain ⟨s1, s2⟩ := seed_bootstrap_frame addrs h [] n hn
  obtain ⟨l1, l2⟩ := bootstrap_loop_frame _ addrs (seed_bootstrap h [] addrs).1
    (seed_bootstrap h [] addrs).2 n s1
  exact ⟨l1, l2.trans s2⟩

/-- Any number of engine invocations leaves the first n cells unchanged. -/
theorem iterate_engine_frame (addrs : List Nat) (rss : Nat → Nat → Nat) :
    ∀ (k : Nat) (h : RecordHeap) (n : Nat), n ≤ h.length →
      (iterate_engine addrs rss k h).take n = h.take n := by
  intro k
  induction k with
  | zero => intro h n hn; rfl
  | succ k2 ih =>
    intro h n hn
    simp only [iterate_engine]
    obtain ⟨g1, g2⟩ := generate_st_frame h addrs (rss k2) n hn
    rw [ih _ n g1, g2]

/-- C8: the Resampling Engine never mutates its source records.  After any
number k of invocations against the same source addresses, every record
that was in the store before (identifier, name, description and residue
sequence alike) is exactly as it was: all writes go to freshly allocated
copies (`rec[:0]`, `rec[:]` and the seq assignment on the copy). -/
theorem resampler_preserves_source_heap (addrs : List Nat)
    (rss : Nat → Nat → Nat) (k : Nat) (h : RecordHeap) :
    (iterate_engine addrs rss k h).take h.length = h := by
  rw [iterate_engine_frame addrs rss k h h.length le_rfl, List.take_length]

/-- C9: in any completed run of the replicate loop, the outcome list has
one entry per replicate index 1..n in order, and the tree-inference
success flag of each entry is exactly the environment's per-index exit
status: a caught FastTree failure at one index never suppresses or alters
any other index's replicate. -/
theorem replicate_loop_isolates_fasttree_failures (al : MultipleSeqAlignment)
    (env : RepEnv) (n : Nat) (outs : List RepOutcome)
    (h : fasttree_loop al env n = .ok outs) :
    outs = (List.range n).map (fun k => ⟨k + 1, env.fasttreeOk (k + 1)⟩) := by
  induction n generalizing outs with
  | zero =>
    simp only [fasttree_loop] at h
    simp only [List.range_zero, List.map_nil]
    simpa using h.symm
  | succ n2 ih =>
    simp only [fasttree_loop] at h
    cases hprev : fasttree_loop al env n2 with
    | error e => simp [hprev] at h
    | ok acc =>
      simp only [hprev] at h
      cases hg : generate_bootstrap_alignment al (env.randSource (n2 + 1)) with
      | error e => simp [hg] at h
      | ok bs =>
        simp only [hg] at h
        have hout : outs = acc ++ [⟨n2 + 1, env.fasttreeOk (n2 + 1)⟩] := by
          simpa using h.symm
        rw [hout, ih acc hprev, List.range_succ, List.map_append]
        simp

/-- C9 witness: a two-replicate run where FastTree fails on replicate 1
and succeeds on replicate 2 still completes both replicates in order. -/
theorem replicate_loop_witness :
    (fasttree_loop alEmpty envRep0 2 = .ok [⟨1, false⟩, ⟨2, true⟩]) ∧
    ([⟨1, false⟩, ⟨2, true⟩] : List RepOutcome) =
      (List.range 2).map (fun k => ⟨k + 1, envRep0.fasttreeOk (k + 1)⟩) :=
  ⟨rfl, replicate_loop_isolates_fasttree_failures alEmpty envRep0 2 _ rfl⟩
